import Mathlib

/-!
Verification of the asynchronous job-processing pipeline of the
edit-pro-web-2 repository (Express server + SQLite job table + FFmpeg
worker).  The definitions below are a shallow embedding of:

* the `projects` row and the prepared statements of `database.js`
  (src/unnamed/part_005), in particular `updateProjectStatus`, which is a
  plain unconditional `UPDATE projects SET status, progress, currentStep`;
* the server orchestration functions of src/unnamed/part_006
  (`startProcessingWithRetry`, `processVideoWithAI`,
  `simulateAIProcessing`, the `/api/projects/:id/process` and
  `/api/render/webhook` handlers) — src/unnamed/part_007 contains an
  older copy of the same functions whose ffmpeg branch is identical;
* the `AIVideoProcessor` class of src/backend/ai-processor.js
  (`getStyleConfig`, `buildStyleFilters`, `processVideo` and the
  per-stage helpers `detectScenes`, `applyJumpCuts`, `addCaptions`,
  `optimizeQuality`).

Database writes are modelled as an explicit list of `Write` events folded
over a single job's row (the orchestrator is the only writer for a job
id); external-tool invocations are modelled by a boolean outcome oracle,
one flag per fallible subprocess call.  Numeric filter arguments are
modelled as exact rationals (with an explicit `NaN` for arithmetic on a
non-number), and JS object-literal bracket lookups model the prototype
chain: a key missing from the literal's own keys still hits the truthy
inherited `Object.prototype` members before any `||` fallback fires.
-/

/-- Job status strings written by the code: the table default is
`'pending'`; the orchestrator writes `'processing'`, `'completed'` and
`'error'`. -/
inductive Status
  | pending
  | processing
  | completed
  | error
deriving DecidableEq

/-- One row of the `projects` table, restricted to the columns the
pipeline reads or writes. -/
structure Project where
  id : String
  name : String
  status : Status
  style : String
  intensity : String
  quality : String
  progress : Int
  currentStep : String
  thumbnail : Option String
  processedVideo : Option String
  originalVideo : String
deriving DecidableEq

/-- The store for one job id: `none` when no row with that id exists. -/
abbrev Store := Option Project

/-- `projectOperations.updateProjectStatus` (part_005 lines 223‑225):
`UPDATE projects SET status = ?, progress = ?, currentStep = ? WHERE id = ?`.
The statement is unconditional: if the row exists all three fields are
overwritten, whatever the current status; if it does not exist the
UPDATE matches zero rows. -/
def updateProjectStatus (status : Status) (progress : Int) (currentStep : String) :
    Store → Store
  | none => none
  | some p => some { p with status := status, progress := progress, currentStep := currentStep }

/-- One database write performed by the pipeline:
`setStatus` is `updateProjectStatus`, `setProject` is the
`updateProject` statement restricted to the fields it actually changes
(`thumbnail`, `processedVideo`; the remaining columns are rewritten with
the values read at function entry), `addHistory` is
`historyOperations.addStep` (append-only, does not touch the row). -/
inductive Write
  | setStatus (status : Status) (progress : Int) (currentStep : String)
  | setProject (thumbnail : Option String) (processedVideo : Option String)
  | addHistory (step : String) (status : String) (message : String)
deriving DecidableEq

def applyWrite (s : Store) (w : Write) : Store :=
  match w with
  | .setStatus st pr step => updateProjectStatus st pr step s
  | .setProject th pv =>
      match s with
      | none => none
      | some p => some { p with thumbnail := th, processedVideo := pv }
  | .addHistory _ _ _ => s

def applyWrites (s : Store) (ws : List Write) : Store :=
  ws.foldl applyWrite s

def finalState (s : Store) (ws : List Write) : Store :=
  applyWrites s ws

/-- All states the row passes through while a write trace executes,
including the initial one (what a poller of
`GET /api/projects/:id/progress` can observe). -/
def statesAfter (s : Store) : List Write → List Store
  | [] => [s]
  | w :: ws => s :: statesAfter (applyWrite s w) ws

/-- The sequence of `progress` values observable over a trace. -/
def progressTrace (s : Store) (ws : List Write) : List Int :=
  (statesAfter s ws).filterMap (fun st => st.map Project.progress)

/-- All `progress` values persisted by status writes of a trace. -/
def persistedProgressValues (ws : List Write) : List Int :=
  ws.filterMap (fun w =>
    match w with
    | .setStatus _ p _ => some p
    | _ => none)

/-! ## Stage library: `AIVideoProcessor.getStyleConfig` / `buildStyleFilters`
(src/backend/ai-processor.js lines 148‑222). -/

/-- One entry of the `baseConfigs` object literal (without the
`intensity` field added by the spread in `getStyleConfig`). -/
structure BaseConfig where
  colorGrading : String
  contrast : String
  sharpness : String
  fps : Nat
deriving DecidableEq

def cinematicConfig : BaseConfig :=
  { colorGrading := "colorlevels=rimin=0.058:gimin=0.058:bimin=0.058:rimax=0.942:gimax=0.942:bimax=0.942"
    contrast := "eq=contrast=1.2:brightness=0.05:saturation=1.1"
    sharpness := "unsharp=3:3:1.5:3:3:0.5"
    fps := 24 }

def mrbeastConfig : BaseConfig :=
  { colorGrading := "colorlevels=rimin=0.1:gimin=0.1:bimin=0.1:rimax=0.9:gimax=0.9:bimax=0.9"
    contrast := "eq=contrast=1.5:brightness=0.1:saturation=1.3"
    sharpness := "unsharp=5:5:2:5:5:1"
    fps := 30 }

def vlogConfig : BaseConfig :=
  { colorGrading := "colorlevels=rimin=0.05:gimin=0.05:bimin=0.05:rimax=0.95:gimax=0.95:bimax=0.95"
    contrast := "eq=contrast=1.1:brightness=0.02:saturation=1.05"
    sharpness := "unsharp=2:2:0.8:2:2:0.4"
    fps := 30 }

def podcastConfig : BaseConfig :=
  { colorGrading := "colorlevels=rimin=0.02:gimin=0.02:bimin=0.02:rimax=0.98:gimax=0.98:bimax=0.98"
    contrast := "eq=contrast=1.05:brightness=0:saturation=0.95"
    sharpness := "unsharp=1:1:0.5:1:1:0.25"
    fps := 30 }

/-- Own-property names of `Object.prototype` in Node.  A bracket lookup
`obj[key]` on an object literal whose own keys miss falls through to
these inherited properties, and every one of them is truthy (a function,
or `Object.prototype` itself for `__proto__`), so `lookup || fallback`
does NOT fall back on them. -/
def objectProtoKeys : List String :=
  ["constructor", "hasOwnProperty", "isPrototypeOf", "propertyIsEnumerable",
   "toLocaleString", "toString", "valueOf", "__defineGetter__",
   "__defineSetter__", "__lookupGetter__", "__lookupSetter__", "__proto__"]

/-- Value of the expression `baseConfigs[style] || baseConfigs.cinematic`:
one of the table's own config objects, the cinematic fallback when the
lookup was `undefined`, or a truthy value inherited from
`Object.prototype`, which short-circuits the `||` so the fallback never
fires. -/
inductive ResolvedBase
  | config (c : BaseConfig)
  | inherited (key : String)
deriving DecidableEq

def baseConfigs (style : String) : ResolvedBase :=
  if style = "cinematic" then ResolvedBase.config cinematicConfig
  else if style = "mrbeast" then ResolvedBase.config mrbeastConfig
  else if style = "vlog" then ResolvedBase.config vlogConfig
  else if style = "podcast" then ResolvedBase.config podcastConfig
  else if style ∈ objectProtoKeys then ResolvedBase.inherited style
  else ResolvedBase.config cinematicConfig

/-- Value of the expression `intensityMultipliers[intensity] || 1.0`:
a number from the table, the 1.0 fallback when the lookup was
`undefined`, or a truthy function inherited from `Object.prototype`,
which again short-circuits the `||`. -/
inductive JsMultiplier
  | num (q : ℚ)
  | inherited (key : String)
deriving DecidableEq

def intensityMultiplier (intensity : String) : JsMultiplier :=
  if intensity = "light" then JsMultiplier.num (1/2)
  else if intensity = "medium" then JsMultiplier.num 1
  else if intensity = "high" then JsMultiplier.num (3/2)
  else if intensity = "extreme" then JsMultiplier.num 2
  else if intensity ∈ objectProtoKeys then JsMultiplier.inherited intensity
  else JsMultiplier.num 1

/-- The record returned by `getStyleConfig`: the resolved base spread
together with the resolved intensity multiplier.  A field is `none`
when the corresponding property is `undefined` in JS. -/
structure StyleConfig where
  colorGrading : Option String
  contrast : Option String
  sharpness : Option String
  fps : Option Nat
  intensity : JsMultiplier
deriving DecidableEq

/-- `getStyleConfig` (ai-processor.js lines 148‑190):
`{...baseConfig, intensity: multiplier}`.  Spreading an inherited
function (or `Object.prototype` for `__proto__`) contributes no own
enumerable properties, so in that case every base field of the result
is `undefined`. -/
def getStyleConfig (style intensity : String) : StyleConfig :=
  match baseConfigs style with
  | ResolvedBase.config b =>
      { colorGrading := some b.colorGrading, contrast := some b.contrast,
        sharpness := some b.sharpness, fps := some b.fps,
        intensity := intensityMultiplier intensity }
  | ResolvedBase.inherited _ =>
      { colorGrading := none, contrast := none, sharpness := none,
        fps := none, intensity := intensityMultiplier intensity }

/-- A JS number produced by the intensity arithmetic
`1 + (multiplier - 1) * k`: exact rational when the multiplier is a
number, `NaN` when it is an inherited function. -/
inductive JsNum
  | num (q : ℚ)
  | nan
deriving DecidableEq

def intensityArith (m : JsMultiplier) (k : ℚ) : JsNum :=
  match m with
  | JsMultiplier.num q => JsNum.num (1 + (q - 1) * k)
  | JsMultiplier.inherited _ => JsNum.nan

/-- One element of the filter chain assembled by `buildStyleFilters`. -/
inductive StyleFilter
  | fixed (s : String)
  | intensityEq (contrast saturation : JsNum)
  | fps24
deriving DecidableEq

/-- `buildStyleFilters` (ai-processor.js lines 193‑222).  Each
`if (styleConfig.…)` truthiness test fails exactly on `undefined`
fields (every string in the tables is non-empty, hence truthy); the
`styleConfig.intensity !== 1.0` strict comparison is true for every
value other than the number 1, including inherited functions. -/
def buildStyleFilters (c : StyleConfig) : List StyleFilter :=
  (match c.colorGrading with
   | some s => [StyleFilter.fixed s]
   | none => [])
  ++ (match c.contrast with
      | some s => [StyleFilter.fixed s]
      | none => [])
  ++ (match c.sharpness with
      | some s => [StyleFilter.fixed s]
      | none => [])
  ++ (if c.intensity ≠ JsMultiplier.num 1 then
        [StyleFilter.intensityEq (intensityArith c.intensity (3/10))
          (intensityArith c.intensity (1/5))]
      else [])
  ++ (if c.fps = some 24 then [StyleFilter.fps24] else [])

/-! ## `AIVideoProcessor.processVideo` (ai-processor.js lines 316‑367)
with its per-stage helpers.  Each fallible subprocess call is one flag of
the outcome oracle; artifacts record which transformations were applied
so that "pass-through" is literally the identity on the artifact. -/

/-- Outcome oracle for one run of `processVideo`: one flag per fallible
external-tool call, `true` meaning the call succeeds. -/
structure ToolOutcomes where
  ffmpegAvailable : Bool
  probeOk : Bool
  styleOk : Bool
  scenesDetected : Bool
  cutToolOk : Bool
  captionToolOk : Bool
  qualityOk : Bool
deriving DecidableEq

/-- Intermediate artifact: the chain of transformations applied to the
source file so far. -/
inductive Artifact
  | source
  | styled (a : Artifact)
  | cut (a : Artifact)
  | captioned (a : Artifact)
  | optimized (a : Artifact)
deriving DecidableEq

/-- Fate of the job-scoped `temp_processing` scratch directory. -/
inductive TempDir
  | notCreated
  | leaked
  | cleaned
deriving DecidableEq

/-- `applyJumpCuts` (lines 225‑252): `detectScenes` swallows its own
tool failures and returns `[]`; an empty scene list or a failing cut
command both fall back to `fs.copy(videoPath, outputPath)`, i.e. the
input artifact unchanged.  This function never throws. -/
def applyJumpCuts (o : ToolOutcomes) (input : Artifact) : Artifact :=
  if o.scenesDetected then
    if o.cutToolOk then Artifact.cut input else input
  else input

/-- `addCaptions` (lines 280‑301): a failing drawtext command falls back
to copying the input unchanged.  This function never throws. -/
def addCaptions (o : ToolOutcomes) (input : Artifact) : Artifact :=
  if o.captionToolOk then Artifact.captioned input else input

/-- Styles for which `processVideo` runs the jump-cut stage at all. -/
def jumpCutStyles : List String := ["mrbeast", "cinematic", "vlog"]

/-- `processVideo` (lines 316‑367).  Mandatory steps — the FFmpeg
availability check, `getVideoInfo`, `applyStyle` (which rethrows) and
`optimizeQuality` — propagate their errors; the scratch directory is
created after the probe and removed only by the final
`await fs.remove(tempDir)` on the success path (there is no
try/finally), so an exception thrown in between leaks it. -/
def processVideo (o : ToolOutcomes) (style : String) :
    Except String Artifact × TempDir :=
  if ¬ o.ffmpegAvailable then (Except.error "FFmpeg not available", TempDir.notCreated)
  else if ¬ o.probeOk then (Except.error "FFprobe failed", TempDir.notCreated)
  else if ¬ o.styleOk then (Except.error "Command failed", TempDir.leaked)
  else
    let styledA := Artifact.styled Artifact.source
    let cutA := if style ∈ jumpCutStyles then applyJumpCuts o styledA else styledA
    let capA := addCaptions o cutA
    if ¬ o.qualityOk then (Except.error "Command failed", TempDir.leaked)
    else (Except.ok (Artifact.optimized capA), TempDir.cleaned)

/-! ## Server orchestration (src/unnamed/part_006). -/

/-- The body of the local `updateProgress` closure of
`processVideoWithAI` (lines 1519‑1536): one `updateProjectStatus` with
status `'processing'` followed by one `progress_update` history row. -/
def updateProgressWrites (progress : Int) (message : String) : List Write :=
  [Write.setStatus Status.processing progress message,
   Write.addHistory "progress_update" "success" message]

/-- `processVideoWithAI` (lines 1505‑1662), as the list of database
writes one call performs.  `shotstackMode` is `AI_MODE === 'shotstack'`;
`proc` is the outcome of the fallible rendering step (the local
`aiProcessor.processVideo` call, or — cloud mode — the
upload/submit/poll sequence collapsed into one step whose success
payload is the processed-video field value).  Every failure inside the
`try` lands in the function's own `catch`, which writes status
`'error'`/progress 0 plus an `error` history row and does NOT rethrow:
the returned promise always resolves. -/
def processVideoWithAI (store : Store) (shotstackMode : Bool)
    (proc : Except String String) : List Write :=
  match store with
  | none => []
  | some project =>
    [Write.setStatus Status.processing 0 "Starting AI processing"]
    ++ updateProgressWrites 10 "Analyzing video content..."
    ++ updateProgressWrites 25 "Detecting scenes and cuts..."
    ++ updateProgressWrites 50 "Applying AI editing style..."
    ++ updateProgressWrites 75 "Processing with AI algorithms..."
    ++ (if shotstackMode then
          updateProgressWrites 76 "Uploading to cloud renderer..."
          ++ updateProgressWrites 82 "Submitting cloud render..."
          ++ updateProgressWrites 90 "Rendering in the cloud..."
          ++ (match proc with
              | Except.ok processedField =>
                  [Write.setProject (some (project.thumbnail.getD "demo-thumbnail.jpg"))
                      (some processedField)]
                  ++ updateProgressWrites 100 "Finalizing video..."
                  ++ [Write.setStatus Status.completed 100 "Processing completed successfully"]
              | Except.error msg =>
                  [Write.setStatus Status.error 0 ("Error: " ++ msg),
                   Write.addHistory "error" "error" msg])
        else
          match proc with
          | Except.ok _ =>
              updateProgressWrites 100 "Finalizing video..."
              ++ [Write.setProject (some ("thumbnail-" ++ project.id ++ ".jpg"))
                    (some ("processed-" ++ project.id ++ ".mp4")),
                  Write.setStatus Status.completed 100 "Processing completed successfully"]
          | Except.error msg =>
              [Write.setStatus Status.error 0 ("Error: " ++ msg),
               Write.addHistory "error" "error" msg])

/-- `simulateAIProcessing` (lines 1716‑1817): the demo fallback.  It
walks five simulated steps, then marks the job `'completed'` BEFORE
writing the demo `processedVideo` reference, and never throws (its own
catch swallows everything). -/
def simulateAIProcessing (store : Store) : List Write :=
  match store with
  | none => []
  | some _ =>
    [Write.setStatus Status.processing 0 "Starting simulation processing",
     Write.setStatus Status.processing 20 "Analyzing video content",
     Write.setStatus Status.processing 40 "Detecting scenes and cuts",
     Write.setStatus Status.processing 60 "Applying style effects",
     Write.setStatus Status.processing 80 "Color grading and enhancement",
     Write.setStatus Status.processing 100 "Final rendering",
     Write.setStatus Status.completed 100 "Simulation processing completed",
     Write.setProject (some "demo-thumbnail.jpg") (some "demo-video.mp4"),
     Write.addHistory "completion" "success" "Simulation processing completed successfully"]

/-- One call of the `run` closure of `startProcessingWithRetry`
(lines 1480‑1486), returning the writes it performs and whether the
awaited promise rejected.  Both `processVideoWithAI` and
`simulateAIProcessing` trap every processing failure in their own
`catch` without rethrowing, so the rejection flag is `false`. -/
def runOnce (store : Store) (useSimulation shotstackMode : Bool)
    (proc : Except String String) : List Write × Bool :=
  if useSimulation then (simulateAIProcessing store, false)
  else (processVideoWithAI store shotstackMode proc, false)

/-- Result of the retry loop: accumulated writes, number of attempts
actually started, and the backoff delays (ms) slept between attempts. -/
structure RetryResult where
  writes : List Write
  attempts : Nat
  backoffs : List Nat
deriving DecidableEq

/-- The `for (attempt = 1; attempt <= retries; attempt++)` loop of
`startProcessingWithRetry` (lines 1488‑1501), with the per-iteration
outcome given by `run`: return on success; on the last failed attempt
run the fallback `simulateAIProcessing` (its own failure swallowed);
otherwise sleep `1000 * attempt` ms and continue.  `fuel` bounds the
iteration count by `retries`. -/
def retryGo (run : List Write × Bool) (fallback : List Write) (retries : Nat) :
    Nat → Nat → RetryResult
  | _, 0 => { writes := [], attempts := 0, backoffs := [] }
  | attempt, fuel + 1 =>
    if run.2 = false then
      { writes := run.1, attempts := attempt, backoffs := [] }
    else if attempt = retries then
      { writes := run.1 ++ fallback, attempts := attempt, backoffs := [] }
    else
      let r := retryGo run fallback retries (attempt + 1) fuel
      { writes := run.1 ++ r.writes, attempts := r.attempts,
        backoffs := 1000 * attempt :: r.backoffs }

/-- `startProcessingWithRetry(projectId, retries = 3)`
(lines 1477‑1502). -/
def startProcessingWithRetry (store : Store) (useSimulation shotstackMode : Bool)
    (proc : Except String String) (retries : Nat) : RetryResult :=
  retryGo (runOnce store useSimulation shotstackMode proc)
    (simulateAIProcessing store) retries 1 retries

/-- The ffmpeg-mode pipeline end to end: feed the outcome of
`AIVideoProcessor.processVideo` on the project's own style into
`processVideoWithAI` (lines 1600‑1609). -/
def runLocalPipeline (store : Store) (o : ToolOutcomes) : List Write :=
  match store with
  | none => []
  | some project =>
      processVideoWithAI store false
        ((processVideo o project.style).1.map (fun _ => "processed"))

/-- `POST /api/projects/:id/process` (lines 932‑969): response
`(HTTP status, message)`, the store after the handler's synchronous
writes, and whether `startProcessingWithRetry` was launched. -/
def processEndpoint (store : Store) : (Nat × String) × Store × Bool :=
  match store with
  | none => ((404, "Project not found"), none, false)
  | some project =>
    if project.status = Status.processing then
      ((400, "Project is already processing"), some project, false)
    else
      ((200, "AI processing started"),
       updateProjectStatus Status.processing 0 "Starting AI processing" (some project),
       true)

/-- `POST /api/render/webhook` (lines 1410‑1474), for a resolvable
`projectId`: response code plus the writes performed. -/
def renderWebhook (store : Store) (status : String) (outputUrl : Option String) :
    Nat × List Write :=
  match store with
  | none => (404, [])
  | some project =>
    if status = "done" ∧ outputUrl.isSome then
      (200,
       [Write.setProject (some (project.thumbnail.getD ("thumbnail-" ++ project.id ++ ".jpg")))
          outputUrl,
        Write.setStatus Status.completed 100 "Processing completed via webhook"])
    else if status = "failed" ∨ status = "error" ∨ status = "cancelled" then
      (200, [Write.setStatus Status.error 0 ("Render failed (" ++ status ++ ")")])
    else (202, [])

/-! ## Test fixtures and decidable helper predicates. -/

/-- A freshly claimed job, as the `process` endpoint leaves it just
before the pipeline starts. -/
def testProject : Project :=
  { id := "p1", name := "My Video", status := Status.processing,
    style := "cinematic", intensity := "medium", quality := "1080p",
    progress := 0, currentStep := "Starting AI processing",
    thumbnail := none, processedVideo := none, originalVideo := "orig.mp4" }

/-- A job in the terminal `'completed'` state. -/
def doneProject : Project :=
  { testProject with
    status := Status.completed
    progress := 100
    currentStep := "Processing completed successfully"
    thumbnail := some "thumbnail-p1.jpg"
    processedVideo := some "processed-p1.mp4" }

/-- Write trace of a successful default-mode (ffmpeg) run. -/
def ffmpegOkTrace : List Write :=
  processVideoWithAI (some testProject) false (Except.ok "processed")

/-- Write trace of a failing default-mode (ffmpeg) run. -/
def ffmpegErrTrace : List Write :=
  processVideoWithAI (some testProject) false (Except.error "Command failed: boom")

/-- Oracle on which every external-tool call succeeds. -/
def allToolsOk : ToolOutcomes :=
  { ffmpegAvailable := true, probeOk := true, styleOk := true,
    scenesDetected := true, cutToolOk := true, captionToolOk := true,
    qualityOk := true }

/-- Oracle on which the mandatory `applyStyle` command fails. -/
def styleFailOutcomes : ToolOutcomes := { allToolsOk with styleOk := false }

/-- Oracle on which exactly the optional cut and caption tools fail. -/
def optionalFailOutcomes : ToolOutcomes :=
  { allToolsOk with cutToolOk := false, captionToolOk := false }

/-- `true` unless the write is a status write setting `'error'` with a
non-zero progress. -/
def writeErrorZeroB : Write → Bool
  | .setStatus Status.error p _ => p == 0
  | _ => true

/-- `true` unless the write records a fatal failure on the job: a status
write to `'error'` or a history row whose status column is `'error'`. -/
def nonFatalWriteB : Write → Bool
  | .setStatus Status.error _ _ => false
  | .addHistory _ "error" _ => false
  | _ => true

/-- A sequence of progress values is non-decreasing. -/
def nonDecreasing : List Int → Bool
  | [] => true
  | [_] => true
  | a :: b :: t => a ≤ b && nonDecreasing (b :: t)

def exceptIsOk : Except String Artifact → Bool
  | .ok _ => true
  | .error _ => false

/-- Oracle on which exactly the caption tool fails. -/
def capFailOutcomes : ToolOutcomes := { allToolsOk with captionToolOk := false }

/-- Oracle on which exactly the jump-cut tool fails. -/
def cutFailOutcomes : ToolOutcomes := { allToolsOk with cutToolOk := false }

/-- Whether a jump-cut transformation was applied anywhere in the
artifact's provenance. -/
def Artifact.hasCut : Artifact → Bool
  | Artifact.source => false
  | Artifact.styled a => a.hasCut
  | Artifact.cut _ => true
  | Artifact.captioned a => a.hasCut
  | Artifact.optimized a => a.hasCut

/-- Whether a caption overlay was applied anywhere in the artifact's
provenance. -/
def Artifact.hasCaption : Artifact → Bool
  | Artifact.source => false
  | Artifact.styled a => a.hasCaption
  | Artifact.cut a => a.hasCaption
  | Artifact.captioned _ => true
  | Artifact.optimized a => a.hasCaption

/-- `Artifact.hasCut` of a successful result, `false` on errors. -/
def okHasCut : Except String Artifact → Bool
  | .ok a => a.hasCut
  | .error _ => false

/-- `Artifact.hasCaption` of a successful result, `false` on errors. -/
def okHasCaption : Except String Artifact → Bool
  | .ok a => a.hasCaption
  | .error _ => false

/-! ## Helper lemmas. -/

/-- An attempt whose `run()` promise resolves makes the retry loop
return immediately, whatever the attempt number or remaining fuel. -/
lemma retryGo_noThrow (ws fb : List Write) (retries attempt m : Nat) :
    retryGo (ws, false) fb retries attempt (m + 1) =
      { writes := ws, attempts := attempt, backoffs := [] } := rfl

/-- `applyWrite` preserves "status `'error'` implies progress 0" for
writes satisfying `writeErrorZeroB`. -/
lemma applyWrite_errZero (s : Store) (w : Write)
    (hw : writeErrorZeroB w = true)
    (hs : ∀ q, s = some q → q.status = Status.error → q.progress = 0) :
    ∀ q, applyWrite s w = some q → q.status = Status.error → q.progress = 0 := by
  intro q hq hst
  cases w with
  | setStatus st pr step =>
    cases s with
    | none => simp [applyWrite, updateProjectStatus] at hq
    | some p =>
      simp [applyWrite, updateProjectStatus] at hq
      subst hq
      simp at hst
      subst hst
      simpa [writeErrorZeroB] using hw
  | setProject th pv =>
    cases s with
    | none => simp [applyWrite] at hq
    | some p =>
      simp [applyWrite] at hq
      subst hq
      exact hs p rfl hst
  | addHistory a b c =>
    cases s with
    | none => simp [applyWrite] at hq
    | some p =>
      simp [applyWrite] at hq
      subst hq
      exact hs p rfl hst

/-- Folding a trace of `writeErrorZeroB` writes preserves
"status `'error'` implies progress 0" at every intermediate state. -/
lemma statesAfter_errZero :
    ∀ (ws : List Write) (s : Store),
      ws.all writeErrorZeroB = true →
      (∀ q, s = some q → q.status = Status.error → q.progress = 0) →
      ∀ t ∈ statesAfter s ws, ∀ q, t = some q → q.status = Status.error → q.progress = 0 := by
  intro ws
  induction ws with
  | nil =>
    intro s _ hs t ht
    simp [statesAfter] at ht
    subst ht
    exact hs
  | cons w ws ih =>
    intro s hall hs t ht
    rw [List.all_cons, Bool.and_eq_true] at hall
    simp only [statesAfter, List.mem_cons] at ht
    rcases ht with rfl | ht
    · exact hs
    · exact ih (applyWrite s w) hall.2 (applyWrite_errZero s w hall.1 hs) t ht

/-- Every write `processVideoWithAI` performs satisfies
`writeErrorZeroB`: its only `'error'` status write carries progress 0. -/
lemma processVideoWithAI_errZero (store : Store) (b : Bool) (proc : Except String String) :
    (processVideoWithAI store b proc).all writeErrorZeroB = true := by
  cases store <;> cases b <;> cases proc <;> rfl

/-- Likewise for the demo simulation. -/
lemma simulateAIProcessing_errZero (store : Store) :
    (simulateAIProcessing store).all writeErrorZeroB = true := by
  cases store <;> rfl

/-- Likewise for the render webhook handler. -/
lemma renderWebhook_errZero (store : Store) (wstatus : String) (url : Option String) :
    ((renderWebhook store wstatus url).2).all writeErrorZeroB = true := by
  cases store with
  | none => rfl
  | some p =>
    simp only [renderWebhook]
    split
    · rfl
    · split
      · rfl
      · rfl

/-! ## Claims. -/

/-- C1 counterexample.  On a job whose processing run raises an error
(`Command failed: boom`), `startProcessingWithRetry(projectId, 3)` does
NOT attempt the pipeline 3 times: `processVideoWithAI` traps the error
in its own catch and resolves normally, so the loop returns after a
single attempt with no backoff, the job is already marked `'error'` with
the failure's message, and the fallback (which would be
`simulateAIProcessing`, not a pass-through copy) is never invoked. -/
theorem c1_retry_counterexample :
    (startProcessingWithRetry (some testProject) false false
        (Except.error "Command failed: boom") 3).attempts = 1 ∧
    (startProcessingWithRetry (some testProject) false false
        (Except.error "Command failed: boom") 3).backoffs = [] ∧
    (finalState (some testProject)
        (startProcessingWithRetry (some testProject) false false
          (Except.error "Command failed: boom") 3).writes).map Project.status
      = some Status.error ∧
    (finalState (some testProject)
        (startProcessingWithRetry (some testProject) false false
          (Except.error "Command failed: boom") 3).writes).map Project.currentStep
      = some "Error: Command failed: boom" ∧
    Write.setStatus Status.completed 100 "Simulation processing completed"
      ∉ (startProcessingWithRetry (some testProject) false false
          (Except.error "Command failed: boom") 3).writes := by
  refine ⟨rfl, rfl, rfl, rfl, ?_⟩
  decide

/-- C1 amended.  For any job, any shotstack flag and any failure
message: because `processVideoWithAI` traps processing errors in its own
catch (marking the job `'error'` with the failure's message) and never
rethrows, the retry loop always returns after exactly one attempt with
no backoff, for every configured retry count ≥ 1; and the fallback it
would run on a throwing attempt is `simulateAIProcessing`, which marks
the job `'completed'` with a demo video — not a pass-through copy of the
source. -/
theorem c1_retry_amended :
    (∀ (p : Project) (b : Bool) (msg : String) (n : Nat), 1 ≤ n →
      (startProcessingWithRetry (some p) false b (Except.error msg) n).attempts = 1 ∧
      (startProcessingWithRetry (some p) false b (Except.error msg) n).backoffs = [] ∧
      (finalState (some p)
          (startProcessingWithRetry (some p) false b (Except.error msg) n).writes).map
          Project.status = some Status.error ∧
      (finalState (some p)
          (startProcessingWithRetry (some p) false b (Except.error msg) n).writes).map
          Project.currentStep = some ("Error: " ++ msg)) ∧
    (∀ p : Project,
      (finalState (some p) (simulateAIProcessing (some p))).map Project.status
        = some Status.completed ∧
      (finalState (some p) (simulateAIProcessing (some p))).map Project.processedVideo
        = some (some "demo-video.mp4")) := by
  constructor
  · intro p b msg n hn
    obtain ⟨m, rfl⟩ : ∃ m, n = m + 1 := ⟨n - 1, by omega⟩
    have hr : startProcessingWithRetry (some p) false b (Except.error msg) (m + 1) =
        { writes := processVideoWithAI (some p) b (Except.error msg),
          attempts := 1, backoffs := [] } := by
      simp only [startProcessingWithRetry, runOnce, Bool.false_eq_true, if_false]
      exact retryGo_noThrow _ _ _ _ m
    rw [hr]
    cases b <;> exact ⟨rfl, rfl, rfl, rfl⟩
  · intro p
    exact ⟨rfl, rfl⟩

/-- C1 amended, witness at a concrete input. -/
theorem c1_retry_amended_witness :
    (1 ≤ 3 ∧
      (startProcessingWithRetry (some testProject) false false
          (Except.error "boom") 3).attempts = 1 ∧
      (startProcessingWithRetry (some testProject) false false
          (Except.error "boom") 3).backoffs = [] ∧
      (finalState (some testProject)
          (startProcessingWithRetry (some testProject) false false
            (Except.error "boom") 3).writes).map Project.status = some Status.error ∧
      (finalState (some testProject)
          (startProcessingWithRetry (some testProject) false false
            (Except.error "boom") 3).writes).map Project.currentStep
        = some ("Error: " ++ "boom")) ∧
    (finalState (some testProject) (simulateAIProcessing (some testProject))).map
        Project.status = some Status.completed :=
  ⟨⟨by decide, c1_retry_amended.1 testProject false "boom" 3 (by decide)⟩,
   (c1_retry_amended.2 testProject).1⟩

/-- C2 counterexample.  `updateProjectStatus` is an unconditional SQL
UPDATE: applied to a job already in the terminal `'completed'` state it
is not rejected — there is no `TerminalStateError` anywhere in the code
— and it overwrites `status`, `progress` and `currentStep`. -/
theorem c2_terminal_counterexample :
    updateProjectStatus Status.processing 5 "restarted" (some doneProject)
      = some { doneProject with
                status := Status.processing
                progress := 5
                currentStep := "restarted" } ∧
    (updateProjectStatus Status.processing 5 "restarted" (some doneProject)).map
        Project.progress ≠ some doneProject.progress ∧
    (updateProjectStatus Status.processing 5 "restarted" (some doneProject)).map
        Project.currentStep ≠ some doneProject.currentStep := by
  refine ⟨rfl, ?_, ?_⟩ <;> decide

/-- C2 amended.  The store's `updateProgress` operation
(`updateProjectStatus`) is a no-op only when the job does not exist; for
an existing job it unconditionally overwrites `status`, `progress` and
`currentStep`, including when the job is already terminal
(`'completed'` or `'error'`). -/
theorem c2_terminal_amended (st : Status) (pr : Int) (step : String) (p : Project)
    (_hterm : p.status = Status.completed ∨ p.status = Status.error) :
    updateProjectStatus st pr step (some p)
      = some { p with status := st, progress := pr, currentStep := step } ∧
    updateProjectStatus st pr step none = none :=
  ⟨rfl, rfl⟩

/-- C2 amended, witness at a concrete terminal job. -/
theorem c2_terminal_amended_witness :
    (doneProject.status = Status.completed ∨ doneProject.status = Status.error) ∧
    (updateProjectStatus Status.processing 5 "restarted" (some doneProject)
      = some { doneProject with
                status := Status.processing
                progress := 5
                currentStep := "restarted" } ∧
    updateProjectStatus Status.processing 5 "restarted" none = none) :=
  ⟨Or.inl rfl,
   c2_terminal_amended Status.processing 5 "restarted" doneProject (Or.inl rfl)⟩

/-- C3 counterexample.  In a successful default-mode run on a fresh job,
the state reached after the step-5 progress write has `progress = 100`
while `status` is still `'processing'`, and the state after the
`updateProject` write has `processedVideo` set while `status` is still
`'processing'` — both directions of the claimed iff fail on reachable
states. -/
theorem c3_invariant_counterexample :
    (applyWrites (some testProject) (ffmpegOkTrace.take 11)).map Project.progress
      = some 100 ∧
    (applyWrites (some testProject) (ffmpegOkTrace.take 11)).map Project.status
      = some Status.processing ∧
    (applyWrites (some testProject) (ffmpegOkTrace.take 12)).map Project.processedVideo
      = some (some "processed-p1.mp4") ∧
    (applyWrites (some testProject) (ffmpegOkTrace.take 12)).map Project.status
      = some Status.processing ∧
    applyWrites (some testProject) (ffmpegOkTrace.take 11)
      ∈ statesAfter (some testProject) ffmpegOkTrace ∧
    applyWrites (some testProject) (ffmpegOkTrace.take 12)
      ∈ statesAfter (some testProject) ffmpegOkTrace := by
  refine ⟨rfl, rfl, rfl, rfl, ?_, ?_⟩ <;> decide

/-- C3 amended.  The claimed iff holds at the END of every pipeline run
started on a fresh job (one with no processed video yet): the final
state has `processedVideo` set iff `status = 'completed'` and
`progress = 100` iff `status = 'completed'` — but it is not an invariant
of every reachable intermediate state (see the counterexample), since
both `progress = 100` and a set `processedVideo` occur while the status
is still `'processing'`. -/
theorem c3_invariant_amended (p : Project) (b : Bool) (proc : Except String String)
    (h : p.processedVideo = none) :
    ((finalState (some p) (processVideoWithAI (some p) b proc)).map Project.processedVideo
        ≠ some none
      ↔ (finalState (some p) (processVideoWithAI (some p) b proc)).map Project.status
        = some Status.completed) ∧
    ((finalState (some p) (processVideoWithAI (some p) b proc)).map Project.progress
        = some 100
      ↔ (finalState (some p) (processVideoWithAI (some p) b proc)).map Project.status
        = some Status.completed) ∧
    ((finalState (some p) (simulateAIProcessing (some p))).map Project.processedVideo
        ≠ some none ∧
     (finalState (some p) (simulateAIProcessing (some p))).map Project.status
        = some Status.completed) := by
  cases b <;> cases proc <;>
    simp [finalState, applyWrites, processVideoWithAI, updateProgressWrites,
      applyWrite, updateProjectStatus, simulateAIProcessing, h]

/-- C3 amended, witness at a concrete input. -/
theorem c3_invariant_amended_witness :
    testProject.processedVideo = none ∧
    (((finalState (some testProject)
          (processVideoWithAI (some testProject) false (Except.ok "processed"))).map
          Project.processedVideo ≠ some none
        ↔ (finalState (some testProject)
            (processVideoWithAI (some testProject) false (Except.ok "processed"))).map
            Project.status = some Status.completed) ∧
     ((finalState (some testProject)
          (processVideoWithAI (some testProject) false (Except.ok "processed"))).map
          Project.progress = some 100
        ↔ (finalState (some testProject)
            (processVideoWithAI (some testProject) false (Except.ok "processed"))).map
            Project.status = some Status.completed) ∧
     ((finalState (some testProject) (simulateAIProcessing (some testProject))).map
          Project.processedVideo ≠ some none ∧
      (finalState (some testProject) (simulateAIProcessing (some testProject))).map
          Project.status = some Status.completed)) :=
  ⟨rfl, c3_invariant_amended testProject false (Except.ok "processed") rfl⟩

/-- C4 counterexample.  On a failing run, the `catch` of
`processVideoWithAI` writes `progress = 0` after progress had reached
75, so the sequence of progress values a poller can observe over the
job's lifetime is NOT non-decreasing. -/
theorem c4_monotonic_counterexample :
    nonDecreasing (progressTrace (some testProject) ffmpegErrTrace) = false ∧
    progressTrace (some testProject) ffmpegErrTrace
      = [0, 0, 10, 10, 25, 25, 50, 50, 75, 75, 0, 0] := by
  exact ⟨rfl, rfl⟩

/-- C4 amended.  For a job starting at progress 0: on a successful run
the observable progress sequence is non-decreasing and the final state
is `'completed'` with progress exactly 100; on a failing run the final
state is `'error'` with progress reset to 0 (so the sequence still ends
at 100 only in the completed case, but monotonicity is broken by the
error transition — see the counterexample). -/
theorem c4_monotonic_amended (p : Project) (b : Bool) (url msg : String)
    (h : p.progress = 0) :
    nonDecreasing (progressTrace (some p)
        (processVideoWithAI (some p) b (Except.ok url))) = true ∧
    (finalState (some p) (processVideoWithAI (some p) b (Except.ok url))).map
        Project.progress = some 100 ∧
    (finalState (some p) (processVideoWithAI (some p) b (Except.ok url))).map
        Project.status = some Status.completed ∧
    (finalState (some p) (processVideoWithAI (some p) b (Except.error msg))).map
        Project.progress = some 0 ∧
    (finalState (some p) (processVideoWithAI (some p) b (Except.error msg))).map
        Project.status = some Status.error := by
  cases b
  · refine ⟨?_, rfl, rfl, rfl, rfl⟩
    have e : progressTrace (some p) (processVideoWithAI (some p) false (Except.ok url))
        = p.progress :: [0, 10, 10, 25, 25, 50, 50, 75, 75, 100, 100, 100, 100] := rfl
    rw [e, h]
    decide
  · refine ⟨?_, rfl, rfl, rfl, rfl⟩
    have e : progressTrace (some p) (processVideoWithAI (some p) true (Except.ok url))
        = p.progress :: [0, 10, 10, 25, 25, 50, 50, 75, 75, 76, 76, 82, 82, 90, 90,
            90, 100, 100, 100] := rfl
    rw [e, h]
    decide

/-- C4 amended, witness at a concrete input. -/
theorem c4_monotonic_amended_witness :
    testProject.progress = 0 ∧
    nonDecreasing (progressTrace (some testProject)
        (processVideoWithAI (some testProject) false (Except.ok "u"))) = true ∧
    (finalState (some testProject)
        (processVideoWithAI (some testProject) false (Except.error "m"))).map
        Project.status = some Status.error :=
  ⟨rfl, (c4_monotonic_amended testProject false "u" "m" rfl).1,
   (c4_monotonic_amended testProject false "u" "m" rfl).2.2.2.2⟩

/-- C5 counterexample.  In the default (ffmpeg) mode of the real
pipeline a successful run never persists a progress value of 90, and
its persisted progress values are not the claimed six checkpoints
`[10, 25, 50, 75, 90, 100]`: the code has five `updateProgress` stages
(10, 25, 50, 75, 100), preceded by the initial `'processing'/0` write
and followed by the terminal `'completed'/100` write. -/
theorem c5_checkpoints_counterexample :
    (90 : Int) ∉ persistedProgressValues ffmpegOkTrace ∧
    persistedProgressValues ffmpegOkTrace ≠ [10, 25, 50, 75, 90, 100] := by
  refine ⟨?_, ?_⟩ <;> decide

/-- C5 amended.  On a successful run the orchestrator persists the
progress values `0, 10, 25, 50, 75, 100, 100` (five stage checkpoints
10/25/50/75/100 between the initial and the terminal write) in default
ffmpeg mode, and `0, 10, 25, 50, 75, 76, 82, 90, 100, 100` in cloud
(shotstack) mode; in both modes the persisted sequence is
non-decreasing, so a poller observes monotonically increasing values. -/
theorem c5_checkpoints_amended (p : Project) (url : String) :
    persistedProgressValues (processVideoWithAI (some p) false (Except.ok url))
      = [0, 10, 25, 50, 75, 100, 100] ∧
    persistedProgressValues (processVideoWithAI (some p) true (Except.ok url))
      = [0, 10, 25, 50, 75, 76, 82, 90, 100, 100] ∧
    nonDecreasing (persistedProgressValues
        (processVideoWithAI (some p) false (Except.ok url))) = true ∧
    nonDecreasing (persistedProgressValues
        (processVideoWithAI (some p) true (Except.ok url))) = true :=
  ⟨rfl, rfl, rfl, rfl⟩

/-- C6 counterexample.  For a style or intensity equal to an inherited
`Object.prototype` property name — here `"toString"` and
`"constructor"`, both outside the recognized sets — the JS bracket
lookup returns the truthy inherited value and the `||` fallback never
fires: `getStyleConfig "toString" "medium"` is NOT the cinematic
default (all its base fields are `undefined`), and
`getStyleConfig "vlog" "constructor"` does NOT get multiplier 1.0. -/
theorem c6_style_resolution_counterexample :
    ("toString" ≠ "cinematic" ∧ "toString" ≠ "mrbeast" ∧
     "toString" ≠ "vlog" ∧ "toString" ≠ "podcast") ∧
    getStyleConfig "toString" "medium" ≠ getStyleConfig "cinematic" "medium" ∧
    (getStyleConfig "toString" "medium").colorGrading = none ∧
    ("constructor" ≠ "light" ∧ "constructor" ≠ "medium" ∧
     "constructor" ≠ "high" ∧ "constructor" ≠ "extreme") ∧
    (getStyleConfig "vlog" "constructor").intensity ≠ JsMultiplier.num 1 := by
  refine ⟨by decide, by decide, rfl, by decide, by decide⟩

/-- C6 amended.  `getStyleConfig` is a pure function of
`(style, intensity)` and the filter-chain descriptor depends only on
that pair; any style outside the four known keys THAT IS NOT an
inherited `Object.prototype` property name resolves to the cinematic
default, and any such intensity resolves to multiplier 1; the
recognized intensities map to multipliers 1/2, 1, 3/2, 2.  For an
inherited property name the `||` fallback is bypassed: such a style
yields a config whose base fields are all `undefined`, and such an
intensity yields the inherited function as multiplier. -/
theorem c6_style_resolution :
    (∀ s i, s ≠ "cinematic" → s ≠ "mrbeast" → s ≠ "vlog" → s ≠ "podcast" →
       s ∉ objectProtoKeys → getStyleConfig s i = getStyleConfig "cinematic" i) ∧
    (∀ s i, i ≠ "light" → i ≠ "medium" → i ≠ "high" → i ≠ "extreme" →
       i ∉ objectProtoKeys → (getStyleConfig s i).intensity = JsMultiplier.num 1) ∧
    (∀ s, (getStyleConfig s "light").intensity = JsMultiplier.num (1/2) ∧
          (getStyleConfig s "medium").intensity = JsMultiplier.num 1 ∧
          (getStyleConfig s "high").intensity = JsMultiplier.num (3/2) ∧
          (getStyleConfig s "extreme").intensity = JsMultiplier.num 2) ∧
    (∀ s i, s ∈ objectProtoKeys →
       (getStyleConfig s i).colorGrading = none ∧
       (getStyleConfig s i).contrast = none ∧
       (getStyleConfig s i).sharpness = none ∧
       (getStyleConfig s i).fps = none) ∧
    (∀ s i, i ∈ objectProtoKeys →
       (getStyleConfig s i).intensity = JsMultiplier.inherited i) ∧
    (∀ s₁ i₁ s₂ i₂, s₁ = s₂ → i₁ = i₂ →
       buildStyleFilters (getStyleConfig s₁ i₁)
         = buildStyleFilters (getStyleConfig s₂ i₂)) := by
  refine ⟨?_, ?_, ?_, ?_, ?_, ?_⟩
  · intro s i h1 h2 h3 h4 h5
    simp [getStyleConfig, baseConfigs, h1, h2, h3, h4, h5]
  · intro s i h1 h2 h3 h4 h5
    have hm : intensityMultiplier i = JsMultiplier.num 1 := by
      simp [intensityMultiplier, h1, h2, h3, h4, h5]
    cases hb : baseConfigs s <;> simp [getStyleConfig, hb, hm]
  · intro s
    refine ⟨?_, ?_, ?_, ?_⟩ <;>
      cases hb : baseConfigs s <;> simp only [getStyleConfig, hb] <;> rfl
  · intro s i hmem
    simp only [objectProtoKeys, List.mem_cons, List.mem_singleton] at hmem
    rcases hmem with rfl | rfl | rfl | rfl | rfl | rfl | rfl | rfl | rfl | rfl | rfl | rfl | h
    all_goals first
      | exact ⟨rfl, rfl, rfl, rfl⟩
      | simp at h
  · intro s i hmem
    have hm : intensityMultiplier i = JsMultiplier.inherited i := by
      simp only [objectProtoKeys, List.mem_cons, List.mem_singleton] at hmem
      rcases hmem with rfl | rfl | rfl | rfl | rfl | rfl | rfl | rfl | rfl | rfl | rfl | rfl | h
      all_goals first
        | rfl
        | simp at h
    cases hb : baseConfigs s <;> simp [getStyleConfig, hb, hm]
  · intro s₁ i₁ s₂ i₂ hs hi
    rw [hs, hi]

/-- C6 amended, witness at concrete inputs of every kind. -/
theorem c6_style_resolution_witness :
    getStyleConfig "unknown-style" "medium" = getStyleConfig "cinematic" "medium" ∧
    (getStyleConfig "vlog" "unknown-intensity").intensity = JsMultiplier.num 1 ∧
    (getStyleConfig "mrbeast" "light").intensity = JsMultiplier.num (1/2) ∧
    (getStyleConfig "toString" "medium").colorGrading = none ∧
    (getStyleConfig "vlog" "constructor").intensity
      = JsMultiplier.inherited "constructor" :=
  ⟨c6_style_resolution.1 "unknown-style" "medium"
     (by decide) (by decide) (by decide) (by decide) (by decide),
   c6_style_resolution.2.1 "vlog" "unknown-intensity"
     (by decide) (by decide) (by decide) (by decide) (by decide),
   (c6_style_resolution.2.2.1 "mrbeast").1,
   (c6_style_resolution.2.2.2.1 "toString" "medium" (by decide)).1,
   c6_style_resolution.2.2.2.2.1 "vlog" "constructor" (by decide)⟩

/-- C7 confirmed.  Whenever the mandatory steps (FFmpeg check, probe,
`applyStyle`, `optimizeQuality`) succeed and the jump-cut tool or the
caption tool (either one, or both) fails, `processVideo` still
succeeds, the job driven through `processVideoWithAI` ends in
`'completed'`, the write trace contains no `'error'` status write and
no history row with status `'error'`, and each failing optional stage
passed its input artifact through unchanged: no jump-cut
transformation appears in the output when the cut tool failed, and no
caption overlay appears when the caption tool failed. -/
theorem c7_graceful_degradation (o : ToolOutcomes) (p : Project)
    (hff : o.ffmpegAvailable = true) (hpr : o.probeOk = true)
    (hst : o.styleOk = true) (hq : o.qualityOk = true)
    (hopt : o.cutToolOk = false ∨ o.captionToolOk = false) :
    exceptIsOk (processVideo o p.style).1 = true ∧
    (finalState (some p) (runLocalPipeline (some p) o)).map Project.status
      = some Status.completed ∧
    (runLocalPipeline (some p) o).all nonFatalWriteB = true ∧
    (o.cutToolOk = false → okHasCut (processVideo o p.style).1 = false) ∧
    (o.captionToolOk = false → okHasCaption (processVideo o p.style).1 = false) := by
  obtain ⟨f, pr, st, sc, cut, cap, q⟩ := o
  cases hff; cases hpr; cases hst; cases hq
  refine ⟨rfl, rfl, rfl, ?_, ?_⟩
  · intro hcut
    cases hcut
    cases sc <;> cases cap <;> by_cases hmem : p.style ∈ jumpCutStyles <;>
      simp [processVideo, applyJumpCuts, addCaptions, okHasCut,
        Artifact.hasCut, hmem]
  · intro hcap
    cases hcap
    cases sc <;> cases cut <;> by_cases hmem : p.style ∈ jumpCutStyles <;>
      simp [processVideo, applyJumpCuts, addCaptions, okHasCaption,
        Artifact.hasCaption, hmem]

/-- C7 witness: the caption tool alone fails while the cut tool
succeeds. -/
theorem c7_graceful_degradation_witness :
    (capFailOutcomes.ffmpegAvailable = true ∧
     capFailOutcomes.probeOk = true ∧
     capFailOutcomes.styleOk = true ∧
     capFailOutcomes.qualityOk = true ∧
     (capFailOutcomes.cutToolOk = false ∨ capFailOutcomes.captionToolOk = false)) ∧
    exceptIsOk (processVideo capFailOutcomes testProject.style).1 = true ∧
    (finalState (some testProject)
        (runLocalPipeline (some testProject) capFailOutcomes)).map Project.status
      = some Status.completed ∧
    (runLocalPipeline (some testProject) capFailOutcomes).all nonFatalWriteB
      = true ∧
    okHasCaption (processVideo capFailOutcomes testProject.style).1 = false :=
  ⟨⟨rfl, rfl, rfl, rfl, Or.inr rfl⟩,
   (c7_graceful_degradation capFailOutcomes testProject rfl rfl rfl rfl
      (Or.inr rfl)).1,
   (c7_graceful_degradation capFailOutcomes testProject rfl rfl rfl rfl
      (Or.inr rfl)).2.1,
   (c7_graceful_degradation capFailOutcomes testProject rfl rfl rfl rfl
      (Or.inr rfl)).2.2.1,
   (c7_graceful_degradation capFailOutcomes testProject rfl rfl rfl rfl
      (Or.inr rfl)).2.2.2.2 rfl⟩

/-- C8 counterexample.  When the mandatory `applyStyle` command fails
after the job-scoped `temp_processing` directory was created,
`processVideo` rethrows without removing it: the cleanup
`await fs.remove(tempDir)` sits only on the success path (no
try/finally), so the scratch area is NOT removed on this exit path. -/
theorem c8_cleanup_counterexample :
    (processVideo styleFailOutcomes "cinematic").1 = Except.error "Command failed" ∧
    (processVideo styleFailOutcomes "cinematic").2 = TempDir.leaked ∧
    (processVideo styleFailOutcomes "cinematic").2 ≠ TempDir.cleaned := by
  refine ⟨rfl, rfl, ?_⟩
  decide

/-- C8 amended.  The scratch area is removed exactly on the successful
exit path: `processVideo` ends with the directory cleaned iff it
returns ok, and any mandatory-stage exception thrown after the
directory was created (style or quality failure with FFmpeg and probe
available) leaves it in place. -/
theorem c8_cleanup_amended (o : ToolOutcomes) (style : String) :
    ((processVideo o style).2 = TempDir.cleaned
       ↔ exceptIsOk (processVideo o style).1 = true) ∧
    (o.ffmpegAvailable = true → o.probeOk = true → o.styleOk = false →
       (processVideo o style).2 = TempDir.leaked) ∧
    (o.ffmpegAvailable = true → o.probeOk = true → o.styleOk = true →
       o.qualityOk = false → (processVideo o style).2 = TempDir.leaked) := by
  obtain ⟨f, pr, st, sc, cut, cap, q⟩ := o
  cases f <;> cases pr <;> cases st <;> cases q <;>
    simp [processVideo, exceptIsOk]

/-- C8 amended, witness at concrete inputs. -/
theorem c8_cleanup_amended_witness :
    ((processVideo styleFailOutcomes "vlog").2 = TempDir.cleaned
       ↔ exceptIsOk (processVideo styleFailOutcomes "vlog").1 = true) ∧
    (styleFailOutcomes.ffmpegAvailable = true ∧ styleFailOutcomes.probeOk = true ∧
     styleFailOutcomes.styleOk = false) ∧
    (processVideo styleFailOutcomes "vlog").2 = TempDir.leaked :=
  ⟨(c8_cleanup_amended styleFailOutcomes "vlog").1,
   ⟨rfl, rfl, rfl⟩,
   (c8_cleanup_amended styleFailOutcomes "vlog").2.1 rfl rfl rfl⟩

/-- C9 confirmed.  Every transition to status `'error'` performed by the
pipeline (`processVideoWithAI` in either mode, the simulation fallback)
or by the render webhook writes `progress = 0` in the same statement, so
as long as the job did not already violate it, every observable state
with status `'error'` has progress 0. -/
theorem c9_error_progress_zero (p : Project) (b : Bool) (proc : Except String String)
    (wstatus : String) (url : Option String)
    (hp : p.status = Status.error → p.progress = 0) :
    (∀ t ∈ statesAfter (some p) (processVideoWithAI (some p) b proc),
       ∀ q, t = some q → q.status = Status.error → q.progress = 0) ∧
    (∀ t ∈ statesAfter (some p) (simulateAIProcessing (some p)),
       ∀ q, t = some q → q.status = Status.error → q.progress = 0) ∧
    (∀ t ∈ statesAfter (some p) (renderWebhook (some p) wstatus url).2,
       ∀ q, t = some q → q.status = Status.error → q.progress = 0) := by
  have hp' : ∀ q, (some p : Store) = some q → q.status = Status.error → q.progress = 0 := by
    intro q hq
    cases hq
    exact hp
  exact ⟨statesAfter_errZero _ _ (processVideoWithAI_errZero (some p) b proc) hp',
         statesAfter_errZero _ _ (simulateAIProcessing_errZero (some p)) hp',
         statesAfter_errZero _ _ (renderWebhook_errZero (some p) wstatus url) hp'⟩

/-- C9 witness: the final state of a concrete failing run is a member of
the observable states and indeed has progress 0 in status `'error'`. -/
theorem c9_error_progress_zero_witness :
    (testProject.status = Status.error → testProject.progress = 0) ∧
    finalState (some testProject) ffmpegErrTrace
      ∈ statesAfter (some testProject) ffmpegErrTrace ∧
    ({ testProject with
        status := Status.error
        progress := 0
        currentStep := "Error: Command failed: boom" } : Project).progress = 0 :=
  ⟨by decide, by decide,
   (c9_error_progress_zero testProject false (Except.error "Command failed: boom")
       "failed" none (by decide)).1
     (finalState (some testProject) ffmpegErrTrace) (by decide)
     { testProject with
        status := Status.error
        progress := 0
        currentStep := "Error: Command failed: boom" } rfl rfl⟩

/-- C10 confirmed.  `POST /api/projects/:id/process` returns 400 and
leaves the job unchanged when its status is already `'processing'` (no
pipeline is launched), and returns 404 for a nonexistent id without
creating or modifying any job. -/
theorem c10_process_endpoint (p : Project) (h : p.status = Status.processing) :
    processEndpoint (some p) = ((400, "Project is already processing"), some p, false) ∧
    processEndpoint none = ((404, "Project not found"), none, false) := by
  refine ⟨?_, rfl⟩
  simp [processEndpoint, h]

/-- C10 witness at a concrete processing job. -/
theorem c10_process_endpoint_witness :
    testProject.status = Status.processing ∧
    processEndpoint (some testProject)
      = ((400, "Project is already processing"), some testProject, false) ∧
    processEndpoint none = ((404, "Project not found"), none, false) :=
  ⟨rfl, (c10_process_endpoint testProject rfl).1, (c10_process_endpoint testProject rfl).2⟩
